import Mathlib

/-!
Verification of the marionette-firmware command dispatch and structured
message utilities: a shallow embedding of `src/fetch/gpio.c`,
`src/fetch/fetch_dac.c` and `src/util/util_messages.c`, with theorems
about token matching, dispatch safety, message framing, diagnostics,
semaphore discipline and initialization idempotence.

C strings are modelled as lists of byte values (the characters before the
terminating NUL, which therefore never appears inside the list).
-/

/-- A C string: the byte values before the terminating NUL. -/
abbrev CStr := List Nat

/-- Convert a Lean string literal to its byte-list model. -/
def cstr (s : String) : CStr := s.toList.map Char.toNat

/-- ASCII tolower, as used by the C library strncasecmp. -/
def tolower (c : Nat) : Nat := if 65 ≤ c ∧ c ≤ 90 then c + 32 else c

/-- Model of the C library function strncasecmp: compare at most n
characters case-insensitively, stopping at the end (NUL) of either
string.  Only the sign and zero-ness of the result are ever used. -/
def strncasecmp : CStr → CStr → Nat → Int
  | _, _, 0 => 0
  | [], [], _ + 1 => 0
  | [], b :: _, _ + 1 => -(tolower b : Int)
  | a :: _, [], _ + 1 => (tolower a : Int)
  | a :: as, b :: bs, n + 1 =>
    if tolower a = tolower b then strncasecmp as bs n
    else (tolower a : Int) - (tolower b : Int)

/-- Modelled from the spec: `get_longest_str_length` lives in
`util_strings.c`, which is not under `src/`.  Per the spec it returns the
greater of the two string lengths, capped at the given fixed maximum. -/
def get_longest_str_length (s1 s2 : CStr) (maxLen : Nat) : Nat :=
  min (max s1.length s2.length) maxLen

/-- Modelled from the spec: the fixed maximum compare length
(`MAX_PIN_STR_LEN`, declared in a header not under `src/`).  The spec only
requires a fixed cap; any bound exceeding the longest candidate string
gives the matcher behaviour described by the spec. -/
def MAX_PIN_STR_LEN : Nat := 8

/-- The comparison both lookup loops in `gpio.c` perform on each map
entry: case-insensitive compare over the longer of the two lengths,
capped at `MAX_PIN_STR_LEN`. -/
def gpio_str_match (cand s : CStr) : Bool :=
  strncasecmp cand s (get_longest_str_length cand s MAX_PIN_STR_LEN) == 0

/-- The STM32 GPIO port pointers `GPIOA` .. `GPIOI`, as an enumeration. -/
inductive GPIOPort
  | A | B | C | D | E | F | G | H | I
deriving DecidableEq, Repr

/-- `gpio_pinmap` from `gpio.c`: pin-name strings paired with pin numbers
(`PIN0` .. `PIN15` are the numbers 0 .. 15). -/
def gpio_pinmap : List (CStr × Nat) :=
  [ (cstr "pin0", 0), (cstr "pin1", 1), (cstr "pin2", 2), (cstr "pin3", 3),
    (cstr "pin4", 4), (cstr "pin5", 5), (cstr "pin6", 6), (cstr "pin7", 7),
    (cstr "pin8", 8), (cstr "pin9", 9), (cstr "pin10", 10), (cstr "pin11", 11),
    (cstr "pin12", 12), (cstr "pin13", 13), (cstr "pin14", 14), (cstr "pin15", 15) ]

/-- `gpio_portmap` from `gpio.c`: port-name strings paired with ports. -/
def gpio_portmap : List (CStr × GPIOPort) :=
  [ (cstr "porta", .A), (cstr "portb", .B), (cstr "portc", .C),
    (cstr "portd", .D), (cstr "porte", .E), (cstr "portf", .F),
    (cstr "portg", .G), (cstr "porth", .H), (cstr "porti", .I) ]

/-- `string_to_pinnum` from `gpio.c`: linear scan of `gpio_pinmap`, first
entry whose name compares equal wins; `none` models `NO_GPIO_PIN`. -/
def string_to_pinnum (pinstr : CStr) : Option Nat :=
  (gpio_pinmap.find? (fun e => gpio_str_match e.1 pinstr)).map Prod.snd

/-- `string_to_gpioport` from `gpio.c`: linear scan of `gpio_portmap`,
first entry whose name compares equal wins; `none` models `NULL`. -/
def string_to_gpioport (portstr : CStr) : Option GPIOPort :=
  (gpio_portmap.find? (fun e => gpio_str_match e.1 portstr)).map Prod.snd

/-! ## GPIO dispatch (`src/fetch/gpio.c`) -/

/-- The terminal sets of `Fetch_terminals` used by `gpio.c` (the struct
itself is declared in a header not under `src/`; its fields here are
exactly the ones `gpio.c` reads). -/
structure Fetch_terminals where
  gpio_subcommandA : List CStr
  gpio_direction : List CStr
  gpio_sense : List CStr
  port_subcommand : List CStr
  pin_subcommand : List CStr

/-- Modelled from the spec: `token_match` lives in `fetch.c`, which is
not under `src/`.  Per the spec it matches a supplied token
case-insensitively against an enumerated candidate set using the same
full-length comparison (greater of the two lengths, capped), returning
the matched index or a negative NO_MATCH sentinel; a null token never
matches. -/
def token_match (terms : List CStr) (token : Option CStr) : Int :=
  match token with
  | none => -1
  | some t =>
    match terms.findIdx? (fun c => gpio_str_match c t) with
    | some i => (i : Int)
    | none => -1

/-- The slots of `cmd_list` that `gpio.c` reads, by their index names
(`ACTION`, `DIRECTION`, `SENSE`, `PORT`, `PIN`); `none` models a NULL
slot. -/
structure CmdList where
  action : Option CStr
  direction : Option CStr
  sense : Option CStr
  port : Option CStr
  pin : Option CStr

/-- A ChibiOS PAL pad operation performed by a gpio handler. -/
inductive PadOp
  | readPad (port : GPIOPort) (pin : Nat)
  | setPad (port : GPIOPort) (pin : Nat)
  | clearPad (port : GPIOPort) (pin : Nat)
  | setPadMode (port : GPIOPort) (pin : Nat) (mode : Nat)
deriving DecidableEq, Repr

/-- ChibiOS PAL mode constants (external HAL header). -/
def PAL_STM32_MODE_INPUT : Nat := 0
/-- ChibiOS PAL mode constants (external HAL header). -/
def PAL_STM32_MODE_OUTPUT : Nat := 1
/-- ChibiOS PAL mode constants (external HAL header). -/
def PAL_STM32_MODE_ANALOG : Nat := 3
/-- ChibiOS PAL pull constants (external HAL header). -/
def PAL_STM32_PUDR_FLOATING : Nat := 0
/-- ChibiOS PAL pull constants (external HAL header). -/
def PAL_STM32_PUDR_PULLUP : Nat := 32
/-- ChibiOS PAL pull constants (external HAL header). -/
def PAL_STM32_PUDR_PULLDOWN : Nat := 64

/-- `gpio_get_port_pin` from `gpio.c`: validate the PORT token against
the terminal set, look the port up, then do the same for the PIN token;
`some (port, pin)` models the true-returning path with both out
parameters set. -/
def gpio_get_port_pin (terms : Fetch_terminals) (cl : CmdList) :
    Option (GPIOPort × Nat) :=
  if 0 ≤ token_match terms.port_subcommand cl.port then
    match cl.port.bind string_to_gpioport with
    | some port =>
      if 0 ≤ token_match terms.pin_subcommand cl.pin then
        match cl.pin.bind string_to_pinnum with
        | some pin => some (port, pin)
        | none => none
      else none
    | none => none
  else none

/-- `gpio_get` from `gpio.c`; the trace records the PAL pad operations
performed (the read value is also printed, which the pad trace does not
record). -/
def gpio_get (terms : Fetch_terminals) (cl : CmdList) : Bool × List PadOp :=
  match gpio_get_port_pin terms cl with
  | some (port, pin) => (true, [.readPad port pin])
  | none => (false, [])

/-- `gpio_set` from `gpio.c`. -/
def gpio_set (terms : Fetch_terminals) (cl : CmdList) : Bool × List PadOp :=
  match gpio_get_port_pin terms cl with
  | some (port, pin) => (true, [.setPad port pin])
  | none => (false, [])

/-- `gpio_clear` from `gpio.c`. -/
def gpio_clear (terms : Fetch_terminals) (cl : CmdList) : Bool × List PadOp :=
  match gpio_get_port_pin terms cl with
  | some (port, pin) => (true, [.clearPad port pin])
  | none => (false, [])

/-- `gpio_config` from `gpio.c`: validate DIRECTION, then SENSE, then
port and pin; only then call `palSetPadMode` with the combined mode. -/
def gpio_config (terms : Fetch_terminals) (cl : CmdList) : Bool × List PadOp :=
  if 0 ≤ token_match terms.gpio_direction cl.direction then
    match cl.direction with
    | none => (false, [])
    | some d =>
      let dirOpt : Option Nat :=
        if strncasecmp d (cstr "input") (cstr "input").length = 0 then
          some PAL_STM32_MODE_INPUT
        else if strncasecmp d (cstr "output") (cstr "output").length = 0 then
          some PAL_STM32_MODE_OUTPUT
        else none
      match dirOpt with
      | none => (false, [])
      | some direction =>
        if 0 ≤ token_match terms.gpio_sense cl.sense then
          match cl.sense with
          | none => (false, [])
          | some sn =>
            let senseOpt : Option Nat :=
              if strncasecmp sn (cstr "pullup") (cstr "pullup").length = 0 then
                some PAL_STM32_PUDR_PULLUP
              else if strncasecmp sn (cstr "pulldown") (cstr "pulldown").length = 0 then
                some PAL_STM32_PUDR_PULLDOWN
              else if strncasecmp sn (cstr "floating") (cstr "floating").length = 0 then
                some PAL_STM32_PUDR_FLOATING
              else if strncasecmp sn (cstr "analog") (cstr "analog").length = 0 then
                some PAL_STM32_MODE_ANALOG
              else none
            match senseOpt with
            | none => (false, [])
            | some sense =>
              match gpio_get_port_pin terms cl with
              | some (port, pin) =>
                (true, [.setPadMode port pin (Nat.lor direction sense)])
              | none => (false, [])
        else (false, [])
  else (false, [])

/-- `gpio_dispatch` from `gpio.c`: validate the ACTION token, then route
to the matching handler by comparing against the literal action names. -/
def gpio_dispatch (terms : Fetch_terminals) (cl : CmdList) : Bool × List PadOp :=
  if 0 ≤ token_match terms.gpio_subcommandA cl.action then
    match cl.action with
    | none => (false, [])
    | some a =>
      if strncasecmp a (cstr "get") (cstr "get").length = 0 then
        gpio_get terms cl
      else if strncasecmp a (cstr "set") (cstr "set").length = 0 then
        gpio_set terms cl
      else if strncasecmp a (cstr "clear") (cstr "clear").length = 0 then
        gpio_clear terms cl
      else if strncasecmp a (cstr "config") (cstr "config").length = 0 then
        match cl.direction, cl.sense with
        | some _, some _ => gpio_config terms cl
        | _, _ => (false, [])
      else (false, [])
  else (false, [])

/-- The PORT token passes the terminal-set check and resolves to a port. -/
def port_resolves (terms : Fetch_terminals) (cl : CmdList) : Prop :=
  0 ≤ token_match terms.port_subcommand cl.port ∧
    (cl.port.bind string_to_gpioport).isSome = true

/-- The PIN token passes the terminal-set check and resolves to a pin. -/
def pin_resolves (terms : Fetch_terminals) (cl : CmdList) : Prop :=
  0 ≤ token_match terms.pin_subcommand cl.pin ∧
    (cl.pin.bind string_to_pinnum).isSome = true

instance (terms : Fetch_terminals) (cl : CmdList) :
    Decidable (port_resolves terms cl) := by
  unfold port_resolves; infer_instance

instance (terms : Fetch_terminals) (cl : CmdList) :
    Decidable (pin_resolves terms cl) := by
  unfold pin_resolves; infer_instance

/-- The gpio terminal sets as the spec describes them, for concrete
evaluation. -/
def gpio_terms : Fetch_terminals where
  gpio_subcommandA := [cstr "get", cstr "set", cstr "clear", cstr "config"]
  gpio_direction := [cstr "input", cstr "output"]
  gpio_sense := [cstr "pullup", cstr "pulldown", cstr "floating", cstr "analog"]
  port_subcommand := gpio_portmap.map Prod.fst
  pin_subcommand := gpio_pinmap.map Prod.fst

/-- A command list whose PORT token resolves to no port. -/
def cmd_bad_port : CmdList where
  action := some (cstr "set")
  direction := none
  sense := none
  port := some (cstr "portz")
  pin := some (cstr "pin3")

/-! ## Message utilities (`src/util/util_messages.c`)

Each emission function is modelled by the sequence of events it performs
on the shared output channel: semaphore wait, stream prints, semaphore
signal.  The stream pointer is `Option Unit` (`none` models NULL); the
variadic rendering done by `chvprintf` is abstracted as an explicit
`rendered` byte-string argument, since it depends only on the format and
the arguments, while the structure around it is what the code fixes. -/

/-- A `BaseSequentialStream` pointer: `none` models NULL. -/
abbrev Chp := Option Unit

/-- One step performed by a message-emission function: taking the output
semaphore, printing bytes to the stream, or releasing the semaphore. -/
inductive Ev
  | wait
  | signal
  | out (s : CStr)
deriving DecidableEq, Repr

/-- `needs_newline` from `util_messages.c`: NULL or empty means a
newline is needed; otherwise look at the last character of the string. -/
def needs_newline (str : Option CStr) : Bool :=
  match str with
  | none => true
  | some [] => true
  | some (c :: cs) =>
    let e := (c :: cs).getLastD 0
    !(e == 10 || e == 13)

/-- The element-printing loop shared by the array emitters: print each
element, with a comma after every element except the last. -/
def emit_elems {α : Type} (f : α → CStr) : List α → List Ev
  | [] => []
  | [x] => [.out (f x)]
  | x :: y :: xs => .out (f x) :: .out (cstr ",") :: emit_elems f (y :: xs)

/-- Decimal rendering of a (promoted) unsigned value by chprintf `%u`. -/
def printf_u (x : Nat) : CStr := cstr (toString x)

/-- Decimal rendering of a signed value by chprintf `%d`. -/
def printf_d (x : Int) : CStr := cstr (toString x)

/-- chprintf `%d` applied to a `uint32_t` argument: the 32-bit value is
read back as a signed int, so values of 2^31 and above print negative. -/
def printf_d_of_u32 (x : Nat) : CStr :=
  printf_d (if x < 2147483648 then (x : Int) else (x : Int) - 4294967296)

/-- An uppercase hex digit as a byte. -/
def hexDigitByte (n : Nat) : Nat := if n < 10 then 48 + n else 55 + n

/-- chprintf `%0NX`: uppercase hex, zero-padded to the given width. -/
def printf_hex (width : Nat) (x : Nat) : CStr :=
  let ds := (Nat.toDigits 16 x).map (fun c => hexDigitByte (c.toNat - (if c.toNat ≤ 57 then 48 else 87)))
  List.replicate (width - ds.length) 48 ++ ds

/-- `util_message_begin`: wait, print the BEGIN line, signal.  There is
no NULL check on the stream. -/
def util_message_begin (_chp : Chp) : List Ev :=
  [.wait, .out (cstr "BEGIN:\r\n"), .signal]

/-- `util_message_end`: wait, print END:OK or END:ERROR, signal.  There
is no NULL check on the stream. -/
def util_message_end (_chp : Chp) (success : Bool) : List Ev :=
  if success then [.wait, .out (cstr "END:OK\r\n"), .signal]
  else [.wait, .out (cstr "END:ERROR\r\n"), .signal]

/-- `util_message_debug`: bail out if fmt, file, func or chp is NULL;
otherwise wait, print the debug header, the rendered payload, a CRLF if
the format needs one, and signal. -/
def util_message_debug (chp : Chp) (file : Option CStr) (line : Int)
    (func : Option CStr) (fmt : Option CStr) (rendered : CStr) : List Ev :=
  match fmt, file, func, chp with
  | some f, some fl, some fn, some _ =>
    [.wait,
     .out (cstr "?:" ++ fl ++ cstr ":" ++ printf_d line ++ cstr ":" ++ fn ++ cstr ":"),
     .out rendered] ++
    (if needs_newline (some f) then [.out (cstr "\r\n")] else []) ++ [.signal]
  | _, _, _, _ => []

/-- `util_message_info`: bail out if chp or fmt is NULL; otherwise wait,
print the tag, the rendered payload, a CRLF if the format needs one, and
signal. -/
def util_message_info (chp : Chp) (fmt : Option CStr) (rendered : CStr) : List Ev :=
  match chp, fmt with
  | some _, some f =>
    [.wait, .out (cstr "#:"), .out rendered] ++
    (if needs_newline (some f) then [.out (cstr "\r\n")] else []) ++ [.signal]
  | _, _ => []

/-- `util_message_warning`: as `util_message_info` with tag `W:`. -/
def util_message_warning (chp : Chp) (fmt : Option CStr) (rendered : CStr) : List Ev :=
  match chp, fmt with
  | some _, some f =>
    [.wait, .out (cstr "W:"), .out rendered] ++
    (if needs_newline (some f) then [.out (cstr "\r\n")] else []) ++ [.signal]
  | _, _ => []

/-- `util_message_error`: as `util_message_info` with tag `E:`. -/
def util_message_error (chp : Chp) (fmt : Option CStr) (rendered : CStr) : List Ev :=
  match chp, fmt with
  | some _, some f =>
    [.wait, .out (cstr "E:"), .out rendered] ++
    (if needs_newline (some f) then [.out (cstr "\r\n")] else []) ++ [.signal]
  | _, _ => []

/-- `util_message_bool`: one line `B:name:true` or `B:name:false`. -/
def util_message_bool (chp : Chp) (name : CStr) (data : Bool) : List Ev :=
  match chp with
  | none => []
  | some _ =>
    if data then [.wait, .out (cstr "B:" ++ name ++ cstr ":true\r\n"), .signal]
    else [.wait, .out (cstr "B:" ++ name ++ cstr ":false\r\n"), .signal]

/-- `util_message_string`: tag `S:name:` then the rendered payload. -/
def util_message_string (chp : Chp) (name : CStr) (fmt : Option CStr)
    (rendered : CStr) : List Ev :=
  match chp, fmt with
  | some _, some f =>
    [.wait, .out (cstr "S:" ++ name ++ cstr ":"), .out rendered] ++
    (if needs_newline (some f) then [.out (cstr "\r\n")] else []) ++ [.signal]
  | _, _ => []

/-- `util_message_string_array`: tag `SA:name:` then the comma-separated
strings and a CRLF. -/
def util_message_string_array (chp : Chp) (name : CStr) (arr : List CStr) : List Ev :=
  match chp with
  | none => []
  | some _ =>
    [.wait, .out (cstr "SA:" ++ name ++ cstr ":")] ++ emit_elems id arr ++
    [.out (cstr "\r\n"), .signal]

/-- `util_message_double`: tag `F:name:`; the `%f` renderings of the
elements are taken as given (floating point is not modelled). -/
def util_message_double (chp : Chp) (name : CStr) (rendered_data : List CStr) : List Ev :=
  match chp with
  | none => []
  | some _ =>
    [.wait, .out (cstr "F:" ++ name ++ cstr ":")] ++ emit_elems id rendered_data ++
    [.out (cstr "\r\n"), .signal]

/-- `util_message_int8`: tag `S8:name:`, `%d` per element. -/
def util_message_int8 (chp : Chp) (name : CStr) (data : List Int) : List Ev :=
  match chp with
  | none => []
  | some _ =>
    [.wait, .out (cstr "S8:" ++ name ++ cstr ":")] ++ emit_elems printf_d data ++
    [.out (cstr "\r\n"), .signal]

/-- `util_message_uint8`: tag `U8:name:`, `%u` per element. -/
def util_message_uint8 (chp : Chp) (name : CStr) (data : List Nat) : List Ev :=
  match chp with
  | none => []
  | some _ =>
    [.wait, .out (cstr "U8:" ++ name ++ cstr ":")] ++ emit_elems printf_u data ++
    [.out (cstr "\r\n"), .signal]

/-- `util_message_int16`: tag `S16:name:`, `%d` per element. -/
def util_message_int16 (chp : Chp) (name : CStr) (data : List Int) : List Ev :=
  match chp with
  | none => []
  | some _ =>
    [.wait, .out (cstr "S16:" ++ name ++ cstr ":")] ++ emit_elems printf_d data ++
    [.out (cstr "\r\n"), .signal]

/-- `util_message_uint16`: tag `U16:name:`, `%u` per element. -/
def util_message_uint16 (chp : Chp) (name : CStr) (data : List Nat) : List Ev :=
  match chp with
  | none => []
  | some _ =>
    [.wait, .out (cstr "U16:" ++ name ++ cstr ":")] ++ emit_elems printf_u data ++
    [.out (cstr "\r\n"), .signal]

/-- `util_message_int32`: tag `S32:name:`, `%d` per element. -/
def util_message_int32 (chp : Chp) (name : CStr) (data : List Int) : List Ev :=
  match chp with
  | none => []
  | some _ =>
    [.wait, .out (cstr "S32:" ++ name ++ cstr ":")] ++ emit_elems printf_d data ++
    [.out (cstr "\r\n"), .signal]

/-- `util_message_uint32`: tag `U32:name:`, but the element is printed
with `%d`, not `%u`, reinterpreting the 32-bit value as signed. -/
def util_message_uint32 (chp : Chp) (name : CStr) (data : List Nat) : List Ev :=
  match chp with
  | none => []
  | some _ =>
    [.wait, .out (cstr "U32:" ++ name ++ cstr ":")] ++ emit_elems printf_d_of_u32 data ++
    [.out (cstr "\r\n"), .signal]

/-- `util_message_hex_uint8`: tag `H8:name:`, `%02X` per element. -/
def util_message_hex_uint8 (chp : Chp) (name : CStr) (data : List Nat) : List Ev :=
  match chp with
  | none => []
  | some _ =>
    [.wait, .out (cstr "H8:" ++ name ++ cstr ":")] ++ emit_elems (printf_hex 2) data ++
    [.out (cstr "\r\n"), .signal]

/-- `util_message_hex_uint16`: tag `H16:name:`, `%04X` per element. -/
def util_message_hex_uint16 (chp : Chp) (name : CStr) (data : List Nat) : List Ev :=
  match chp with
  | none => []
  | some _ =>
    [.wait, .out (cstr "H16:" ++ name ++ cstr ":")] ++ emit_elems (printf_hex 4) data ++
    [.out (cstr "\r\n"), .signal]

/-- `util_message_hex_uint32`: tag `H32:name:`, `%08X` per element. -/
def util_message_hex_uint32 (chp : Chp) (name : CStr) (data : List Nat) : List Ev :=
  match chp with
  | none => []
  | some _ =>
    [.wait, .out (cstr "H32:" ++ name ++ cstr ":")] ++ emit_elems (printf_hex 8) data ++
    [.out (cstr "\r\n"), .signal]

/-- One call to any message-emission function of `util_messages.c`,
with its arguments. -/
inductive UtilCall
  | beginMsg (chp : Chp)
  | endMsg (chp : Chp) (success : Bool)
  | debugMsg (chp : Chp) (file : Option CStr) (line : Int) (func : Option CStr)
      (fmt : Option CStr) (rendered : CStr)
  | infoMsg (chp : Chp) (fmt : Option CStr) (rendered : CStr)
  | warningMsg (chp : Chp) (fmt : Option CStr) (rendered : CStr)
  | errorMsg (chp : Chp) (fmt : Option CStr) (rendered : CStr)
  | boolMsg (chp : Chp) (name : CStr) (data : Bool)
  | stringMsg (chp : Chp) (name : CStr) (fmt : Option CStr) (rendered : CStr)
  | stringArrayMsg (chp : Chp) (name : CStr) (arr : List CStr)
  | doubleMsg (chp : Chp) (name : CStr) (rendered_data : List CStr)
  | int8Msg (chp : Chp) (name : CStr) (data : List Int)
  | uint8Msg (chp : Chp) (name : CStr) (data : List Nat)
  | int16Msg (chp : Chp) (name : CStr) (data : List Int)
  | uint16Msg (chp : Chp) (name : CStr) (data : List Nat)
  | int32Msg (chp : Chp) (name : CStr) (data : List Int)
  | uint32Msg (chp : Chp) (name : CStr) (data : List Nat)
  | hex8Msg (chp : Chp) (name : CStr) (data : List Nat)
  | hex16Msg (chp : Chp) (name : CStr) (data : List Nat)
  | hex32Msg (chp : Chp) (name : CStr) (data : List Nat)

/-- The event trace of one emission call. -/
def util_call_trace : UtilCall → List Ev
  | .beginMsg chp => util_message_begin chp
  | .endMsg chp success => util_message_end chp success
  | .debugMsg chp file line func fmt rendered =>
      util_message_debug chp file line func fmt rendered
  | .infoMsg chp fmt rendered => util_message_info chp fmt rendered
  | .warningMsg chp fmt rendered => util_message_warning chp fmt rendered
  | .errorMsg chp fmt rendered => util_message_error chp fmt rendered
  | .boolMsg chp name data => util_message_bool chp name data
  | .stringMsg chp name fmt rendered => util_message_string chp name fmt rendered
  | .stringArrayMsg chp name arr => util_message_string_array chp name arr
  | .doubleMsg chp name rendered_data => util_message_double chp name rendered_data
  | .int8Msg chp name data => util_message_int8 chp name data
  | .uint8Msg chp name data => util_message_uint8 chp name data
  | .int16Msg chp name data => util_message_int16 chp name data
  | .uint16Msg chp name data => util_message_uint16 chp name data
  | .int32Msg chp name data => util_message_int32 chp name data
  | .uint32Msg chp name data => util_message_uint32 chp name data
  | .hex8Msg chp name data => util_message_hex_uint8 chp name data
  | .hex16Msg chp name data => util_message_hex_uint16 chp name data
  | .hex32Msg chp name data => util_message_hex_uint32 chp name data

/-- A trace is semaphore-balanced when it is either empty or takes the
semaphore exactly once at the start, releases it exactly once at the
end, and only prints in between. -/
def sem_balanced (tr : List Ev) : Prop :=
  tr = [] ∨ ∃ body, tr = .wait :: body ++ [.signal] ∧ ∀ e ∈ body, ∃ s, Ev.out s = e

/-- A single line of output: nonempty, CRLF-terminated, with no CR or LF
before the terminator. -/
def is_crlf_line (s : CStr) : Bool :=
  decide (2 ≤ s.length) && (s.drop (s.length - 2) == [13, 10]) &&
    (s.take (s.length - 2)).all (fun c => !(c == 13) && !(c == 10))

/-! ## DAC commands (`src/fetch/fetch_dac.c`) -/

/-- A DAC or SPI driver operation performed by the DAC module. -/
inductive DacOp
  | dacStart
  | spiStart
  | dacPut (channel : Nat) (value : Nat)
  | spiSelect
  | spiSend (bytes : List Nat)
  | spiUnselect
deriving DecidableEq, Repr

/-- An observable event of a DAC command handler: a diagnostic line or a
driver operation. -/
inductive DacEv
  | err (msg : String)
  | inputError
  | op (o : DacOp)
deriving DecidableEq, Repr

/-- C conversion of a (32-bit) signed value to `uint16_t`. -/
def u16ofInt (v : Int) : Nat := (v % 65536).toNat

/-- C `long` saturation performed by `strtol` on overflow (32-bit long). -/
def clampLong (v : Int) : Int := max (-2147483648) (min v 2147483647)

/-- C library `isspace` over the default locale. -/
def isspace_c (c : Nat) : Bool := c == 32 || (9 ≤ c && c ≤ 13)

/-- The numeric value of a digit character under the given base, if any. -/
def digit_val (base c : Nat) : Option Nat :=
  let v :=
    if 48 ≤ c ∧ c ≤ 57 then some (c - 48)
    else if 97 ≤ c ∧ c ≤ 122 then some (c - 87)
    else if 65 ≤ c ∧ c ≤ 90 then some (c - 55)
    else none
  match v with
  | some d => if d < base then some d else none
  | none => none

/-- Split off the longest leading run of digits of the given base. -/
def span_digits (base : Nat) : CStr → (List Nat × CStr)
  | [] => ([], [])
  | c :: cs =>
    match digit_val base c with
    | some _ =>
      let (ds, r) := span_digits base cs
      (c :: ds, r)
    | none => ([], c :: cs)

/-- The value of a digit run read most-significant first. -/
def digits_value (base : Nat) (ds : List Nat) : Nat :=
  ds.foldl (fun a c => a * base + ((digit_val base c).getD 0)) 0

/-- Model of the C library function `strtol` with base 0: skip
whitespace, optional sign, then hex after `0x`, octal after `0`, else
decimal; the second component is the suffix the end pointer refers to.
If no digits are consumed the end pointer is the original start. -/
def strtol_c (s : CStr) : Int × CStr :=
  let s1 := s.dropWhile isspace_c
  let sgn := match s1 with
    | 45 :: t => (true, t)
    | 43 :: t => (false, t)
    | _ => (false, s1)
  let neg := sgn.1
  let s2 := sgn.2
  match s2 with
  | 48 :: x :: t =>
    if x == 120 || x == 88 then
      let (ds, r) := span_digits 16 t
      if ds.isEmpty then (0, x :: t)
      else (clampLong ((if neg then -1 else 1) * (digits_value 16 ds : Int)), r)
    else
      let (ds, r) := span_digits 8 (x :: t)
      (clampLong ((if neg then -1 else 1) * (digits_value 8 ds : Int)), r)
  | [48] => (0, [])
  | _ =>
    let (ds, r) := span_digits 10 s2
    if ds.isEmpty then (0, s)
    else (clampLong ((if neg then -1 else 1) * (digits_value 10 ds : Int)), r)

/-- `external_dac_write` from `fetch_dac.c`: reject a channel above 3 or
a value above 0xfff, otherwise set the channel and op bits and send the
two bytes over SPI.  Both parameters are `uint16_t`. -/
def external_dac_write (channel value : Nat) : Bool × List DacOp :=
  if channel > 3 || value > 0xfff then (false, [])
  else
    let v1 := (value ||| (channel <<< 14)) % 65536
    let v := (v1 ||| (1 <<< 12)) % 65536
    (true, [.spiSelect, .spiSend [v >>> 8, v &&& 0xff], .spiUnselect])

/-- Modelled from the spec: `fetch_input_check` lives in `fetch.c`,
which is not under `src/`.  Per the spec it verifies that the token path
is populated to the expected depth (abstracted here as a boolean) and
that the argument count equals the expectation, emitting a diagnostic
and returning false on mismatch. -/
def fetch_input_check (cmd_depth_ok : Bool) (data_list : List CStr)
    (expected : Nat) : Bool :=
  cmd_depth_ok && (data_list.length == expected)

/-- `fetch_dac_write_cmd` from `fetch_dac.c`: arity check, parse the
channel and the value with strtol rejecting trailing characters, then
route channels 0-3 to the external DAC, channel 4 to the internal one,
and anything else to an error. -/
def fetch_dac_write_cmd (cmd_depth_ok : Bool) (data_list : List CStr) :
    Bool × List DacEv :=
  if fetch_input_check cmd_depth_ok data_list 2 = false then
    (false, [.inputError])
  else
    match data_list with
    | [d0, d1] =>
      let p0 := strtol_c d0
      let channel := p0.1
      if p0.2 ≠ [] then (false, [.err "invalid channel"])
      else
        let p1 := strtol_c d1
        let value := p1.1
        if p1.2 ≠ [] then (false, [.err "invalid value"])
        else
          if channel = 0 ∨ channel = 1 ∨ channel = 2 ∨ channel = 3 then
            let r := external_dac_write (u16ofInt channel) (u16ofInt value)
            (r.1, r.2.map .op)
          else if channel = 4 then
            (true, [.op (.dacPut 0 (u16ofInt value))])
          else (false, [.err "invalid channel"])
    | _ => (false, [])

/-- `fetch_dac_reset` from `fetch_dac.c`: zero the internal channel and
all four external channels. -/
def fetch_dac_reset : Bool × List DacOp :=
  (true,
    [.dacPut 0 0] ++ (external_dac_write 0 0).2 ++ (external_dac_write 1 0).2 ++
      (external_dac_write 2 0).2 ++ (external_dac_write 3 0).2)

/-- `fetch_dac_init` from `fetch_dac.c`, as a function of the static
`dac_init_flag`: when the flag is already set return at once; otherwise
start the DAC and SPI drivers, reset the outputs, and set the flag. -/
def fetch_dac_init (dac_init_flag : Bool) : Bool × List DacOp :=
  if dac_init_flag then (dac_init_flag, [])
  else (true, [.dacStart, .spiStart] ++ fetch_dac_reset.2)

/-- Calling `fetch_dac_init` n times in sequence, accumulating the
driver operations performed. -/
def run_init_n : Nat → Bool → Bool × List DacOp
  | 0, f => (f, [])
  | n + 1, f =>
    let r := fetch_dac_init f
    let r2 := run_init_n n r.1
    (r2.1, r.2 ++ r2.2)

theorem tolower_ne_zero {c : Nat} (h : c ≠ 0) : tolower c ≠ 0 := by
  intro hc
  unfold tolower at hc
  split at hc <;> omega

/-- Over a budget covering both strings, a case-insensitive compare
returns zero exactly when the lowered strings are equal. -/
theorem strncasecmp_eq_zero_iff (c : CStr) : ∀ (s : CStr) (n : Nat),
    c.length ≤ n → s.length ≤ n → 0 ∉ c → 0 ∉ s →
    (strncasecmp c s n = 0 ↔ c.map tolower = s.map tolower) := by
  induction c with
  | nil =>
    intro s n _ hs _ hs0
    cases s with
    | nil => cases n <;> simp [strncasecmp]
    | cons b bs =>
      cases n with
      | zero => simp at hs
      | succ m =>
        have hb : tolower b ≠ 0 := tolower_ne_zero (fun h => hs0 (by simp [h]))
        simp only [strncasecmp, List.map_cons, List.map_nil]
        constructor
        · intro h
          exact absurd (show tolower b = 0 by omega) hb
        · intro h
          exact absurd h (by simp)
  | cons a as ih =>
    intro s n hc hs hc0 hs0
    cases n with
    | zero => simp at hc
    | succ m =>
      have ha : tolower a ≠ 0 := tolower_ne_zero (fun h => hc0 (by simp [h]))
      cases s with
      | nil =>
        simp only [strncasecmp, List.map_cons, List.map_nil]
        constructor
        · intro h
          exact absurd (show tolower a = 0 by omega) ha
        · intro h
          exact absurd h (by simp)
      | cons b bs =>
        simp only [strncasecmp, List.map_cons]
        by_cases hab : tolower a = tolower b
        · rw [if_pos hab, ih bs m (by simpa using hc) (by simpa using hs)
            (fun h => hc0 (List.mem_cons_of_mem _ h))
            (fun h => hs0 (List.mem_cons_of_mem _ h)), hab]
          simp
        · rw [if_neg hab]
          constructor
          · intro h
            exact absurd (show tolower a = tolower b by omega) hab
          · intro h
            simp only [List.cons.injEq] at h
            exact absurd h.1 hab
/-- If the compare budget strictly exceeds the first string but not the
second, the compare never returns zero (the first string runs out while
the second still has a nonzero character). -/
theorem strncasecmp_ne_zero_of_short (c : CStr) : ∀ (s : CStr) (n : Nat),
    c.length < n → n ≤ s.length → 0 ∉ s → strncasecmp c s n ≠ 0 := by
  induction c with
  | nil =>
    intro s n hc hn hs0
    cases n with
    | zero => omega
    | succ m =>
      cases s with
      | nil => simp at hn
      | cons b bs =>
        have hb : tolower b ≠ 0 := tolower_ne_zero (fun h => hs0 (by simp [h]))
        simp only [strncasecmp]
        intro h
        exact hb (by omega)
  | cons a as ih =>
    intro s n hc hn hs0
    cases n with
    | zero => omega
    | succ m =>
      cases s with
      | nil => simp at hn
      | cons b bs =>
        simp only [strncasecmp]
        by_cases hab : tolower a = tolower b
        · rw [if_pos hab]
          exact ih bs m (by simpa using hc) (by simpa using hn)
            (fun h => hs0 (List.mem_cons_of_mem _ h))
        · rw [if_neg hab]
          intro h
          exact hab (by omega)

/-- The comparison performed by the gpio lookup loops succeeds exactly
when the candidate and the input are case-insensitively equal in full,
provided the candidate is shorter than the cap. -/
theorem gpio_str_match_iff (c s : CStr) (hc : c.length < MAX_PIN_STR_LEN)
    (hc0 : 0 ∉ c) (hs0 : 0 ∉ s) :
    gpio_str_match c s = true ↔ c.map tolower = s.map tolower := by
  unfold gpio_str_match get_longest_str_length
  rw [beq_iff_eq]
  by_cases hs : s.length ≤ MAX_PIN_STR_LEN
  · have hmax : min (max c.length s.length) MAX_PIN_STR_LEN = max c.length s.length := by
      omega
    rw [hmax]
    exact strncasecmp_eq_zero_iff c s _ (Nat.le_max_left ..) (Nat.le_max_right ..) hc0 hs0
  · have hmax : min (max c.length s.length) MAX_PIN_STR_LEN = MAX_PIN_STR_LEN := by
      omega
    rw [hmax]
    constructor
    · intro h
      exact absurd h (strncasecmp_ne_zero_of_short c s _ hc (by omega) hs0)
    · intro h
      have hlen : c.length = s.length := by
        have := congrArg List.length h
        simpa using this
      exact absurd hlen (by omega)

/-- A first-match linear scan over a table with pairwise-distinct values,
in which at most one key can satisfy the test, returns the value of entry
i exactly when entry i passes the test. -/
theorem find?_snd_eq_iff {α : Type} : ∀ (l : List (CStr × α)) (q : CStr → Bool),
    (∀ e1, e1 ∈ l → ∀ e2, e2 ∈ l → q e1.1 = true → q e2.1 = true → e1 = e2) →
    (∀ e1, e1 ∈ l → ∀ e2, e2 ∈ l → e1.2 = e2.2 → e1 = e2) →
    ∀ (i : Fin l.length),
      (((l.find? (fun e => q e.1)).map Prod.snd = some (l.get i).2) ↔
        q (l.get i).1 = true) := by
  intro l
  induction l with
  | nil => intro q _ _ i; exact absurd i.isLt (by simp)
  | cons hd tl ih =>
    intro q uniq inj i
    by_cases hq : q hd.1 = true
    · have hf : (hd :: tl).find? (fun e => q e.1) = some hd := by
        simp [List.find?, hq]
      rw [hf]
      rcases i with ⟨iv, hiv⟩
      cases iv with
      | zero => simpa using hq
      | succ j =>
        have hj : j < tl.length := by simpa using hiv
        have hget : (hd :: tl).get ⟨j + 1, hiv⟩ = tl.get ⟨j, hj⟩ := rfl
        rw [hget]
        have hmem : tl.get ⟨j, hj⟩ ∈ tl := List.get_mem ..
        constructor
        · intro h
          have h2 : hd.2 = (tl.get ⟨j, hj⟩).2 := by simpa using h
          have he : hd = tl.get ⟨j, hj⟩ :=
            inj hd (List.mem_cons_self ..) _ (List.mem_cons_of_mem _ hmem) h2
          rw [← he]
          exact hq
        · intro h
          have he : hd = tl.get ⟨j, hj⟩ :=
            uniq hd (List.mem_cons_self ..) _ (List.mem_cons_of_mem _ hmem) hq h
          rw [← he]
          rfl
    · have hf : (hd :: tl).find? (fun e => q e.1) = tl.find? (fun e => q e.1) := by
        simp [List.find?, hq]
      rw [hf]
      rcases i with ⟨iv, hiv⟩
      cases iv with
      | zero =>
        constructor
        · intro h
          match hfe : tl.find? (fun e => q e.1) with
          | none => rw [hfe] at h; simp at h
          | some e =>
            rw [hfe] at h
            have he2 : e.2 = hd.2 := by simpa using h
            have hqe : q e.1 = true := by
              have := List.find?_some hfe
              simpa using this
            have hmem : e ∈ tl := List.mem_of_find?_eq_some hfe
            have he : e = hd :=
              inj e (List.mem_cons_of_mem _ hmem) hd (List.mem_cons_self ..) he2
            exact absurd (he ▸ hqe) hq
        · intro h
          exact absurd h hq
      | succ j =>
        have hj : j < tl.length := by simpa using hiv
        exact ih q
          (fun e1 h1 e2 h2 => uniq e1 (List.mem_cons_of_mem _ h1) e2 (List.mem_cons_of_mem _ h2))
          (fun e1 h1 e2 h2 => inj e1 (List.mem_cons_of_mem _ h1) e2 (List.mem_cons_of_mem _ h2))
          ⟨j, hj⟩

theorem pinmap_wf : ∀ e ∈ gpio_pinmap, e.1.length < MAX_PIN_STR_LEN ∧ 0 ∉ e.1 := by
  decide

theorem portmap_wf : ∀ e ∈ gpio_portmap, e.1.length < MAX_PIN_STR_LEN ∧ 0 ∉ e.1 := by
  decide

theorem pinmap_lower_inj : ∀ e1 ∈ gpio_pinmap, ∀ e2 ∈ gpio_pinmap,
    e1.1.map tolower = e2.1.map tolower → e1 = e2 := by decide

theorem portmap_lower_inj : ∀ e1 ∈ gpio_portmap, ∀ e2 ∈ gpio_portmap,
    e1.1.map tolower = e2.1.map tolower → e1 = e2 := by decide

theorem pinmap_snd_inj : ∀ e1 ∈ gpio_pinmap, ∀ e2 ∈ gpio_pinmap,
    e1.2 = e2.2 → e1 = e2 := by decide

theorem portmap_snd_inj : ∀ e1 ∈ gpio_portmap, ∀ e2 ∈ gpio_portmap,
    e1.2 = e2.2 → e1 = e2 := by decide

/-- C2: token matching is exact case-insensitive equality, not prefix
matching: `string_to_pinnum` returns the pin number of entry i exactly
when the input equals the candidate over the longer of the two lengths
(capped at the fixed maximum), likewise `string_to_gpioport`; an input
strictly shorter than a candidate (in particular any proper prefix of
it) never yields that candidate. -/
theorem claim_C2_exact_match (s : CStr) (hs : 0 ∉ s)
    (i : Fin gpio_pinmap.length) (j : Fin gpio_portmap.length) :
    (string_to_pinnum s = some (gpio_pinmap.get i).2 ↔
      gpio_str_match (gpio_pinmap.get i).1 s = true)
    ∧ (string_to_gpioport s = some (gpio_portmap.get j).2 ↔
      gpio_str_match (gpio_portmap.get j).1 s = true)
    ∧ (s.length < (gpio_pinmap.get i).1.length →
      string_to_pinnum s ≠ some (gpio_pinmap.get i).2)
    ∧ (s.length < (gpio_portmap.get j).1.length →
      string_to_gpioport s ≠ some (gpio_portmap.get j).2) := by
  have uniqP : ∀ e1, e1 ∈ gpio_pinmap → ∀ e2, e2 ∈ gpio_pinmap →
      gpio_str_match e1.1 s = true → gpio_str_match e2.1 s = true → e1 = e2 := by
    intro e1 h1 e2 h2 m1 m2
    have w1 := pinmap_wf e1 h1
    have w2 := pinmap_wf e2 h2
    have t1 := (gpio_str_match_iff e1.1 s w1.1 w1.2 hs).mp m1
    have t2 := (gpio_str_match_iff e2.1 s w2.1 w2.2 hs).mp m2
    exact pinmap_lower_inj e1 h1 e2 h2 (t1.trans t2.symm)
  have uniqQ : ∀ e1, e1 ∈ gpio_portmap → ∀ e2, e2 ∈ gpio_portmap →
      gpio_str_match e1.1 s = true → gpio_str_match e2.1 s = true → e1 = e2 := by
    intro e1 h1 e2 h2 m1 m2
    have w1 := portmap_wf e1 h1
    have w2 := portmap_wf e2 h2
    have t1 := (gpio_str_match_iff e1.1 s w1.1 w1.2 hs).mp m1
    have t2 := (gpio_str_match_iff e2.1 s w2.1 w2.2 hs).mp m2
    exact portmap_lower_inj e1 h1 e2 h2 (t1.trans t2.symm)
  have iffP := find?_snd_eq_iff gpio_pinmap (fun c => gpio_str_match c s)
    uniqP pinmap_snd_inj i
  have iffQ := find?_snd_eq_iff gpio_portmap (fun c => gpio_str_match c s)
    uniqQ portmap_snd_inj j
  refine ⟨iffP, iffQ, ?_, ?_⟩
  · intro hlen hmatch
    have wf := pinmap_wf (gpio_pinmap.get i) (List.get_mem ..)
    have hm := (gpio_str_match_iff (gpio_pinmap.get i).1 s wf.1 wf.2 hs).mp
      (iffP.mp hmatch)
    have hl := congrArg List.length hm
    rw [List.length_map, List.length_map] at hl
    omega
  · intro hlen hmatch
    have wf := portmap_wf (gpio_portmap.get j) (List.get_mem ..)
    have hm := (gpio_str_match_iff (gpio_portmap.get j).1 s wf.1 wf.2 hs).mp
      (iffQ.mp hmatch)
    have hl := congrArg List.length hm
    rw [List.length_map, List.length_map] at hl
    omega

/-- Witness for C2 at the concrete input "pin", a proper prefix of every
pin candidate: it matches no entry. -/
theorem claim_C2_exact_match_witness :
    (0 : Nat) ∉ cstr "pin" ∧
    ((string_to_pinnum (cstr "pin") = some (gpio_pinmap.get ⟨3, by decide⟩).2 ↔
      gpio_str_match (gpio_pinmap.get ⟨3, by decide⟩).1 (cstr "pin") = true)
    ∧ (string_to_gpioport (cstr "pin") = some (gpio_portmap.get ⟨0, by decide⟩).2 ↔
      gpio_str_match (gpio_portmap.get ⟨0, by decide⟩).1 (cstr "pin") = true)
    ∧ ((cstr "pin").length < (gpio_pinmap.get ⟨3, by decide⟩).1.length →
      string_to_pinnum (cstr "pin") ≠ some (gpio_pinmap.get ⟨3, by decide⟩).2)
    ∧ ((cstr "pin").length < (gpio_portmap.get ⟨0, by decide⟩).1.length →
      string_to_gpioport (cstr "pin") ≠ some (gpio_portmap.get ⟨0, by decide⟩).2)) :=
  ⟨by decide, claim_C2_exact_match (cstr "pin") (by decide) ⟨3, by decide⟩ ⟨0, by decide⟩⟩

theorem gpio_get_port_pin_eq_none {terms : Fetch_terminals} {cl : CmdList}
    (h : ¬ (port_resolves terms cl ∧ pin_resolves terms cl)) :
    gpio_get_port_pin terms cl = none := by
  unfold gpio_get_port_pin
  unfold port_resolves pin_resolves at h
  split
  · rename_i hport
    match hp : cl.port.bind string_to_gpioport with
    | some port =>
      simp only
      split
      · rename_i hpin
        match hq : cl.pin.bind string_to_pinnum with
        | some pin =>
          exact absurd ⟨⟨hport, by rw [hp]; rfl⟩, ⟨hpin, by rw [hq]; rfl⟩⟩ h
        | none => rfl
      · rfl
    | none => rfl
  · rfl

/-- C1: whenever the PORT or PIN token fails to resolve, the four gpio
handlers perform no pad operation and return false, and `gpio_dispatch`
returns false having performed no pad operation. -/
theorem claim_C1_no_side_effects (terms : Fetch_terminals) (cl : CmdList)
    (h : ¬ (port_resolves terms cl ∧ pin_resolves terms cl)) :
    gpio_get terms cl = (false, []) ∧
    gpio_set terms cl = (false, []) ∧
    gpio_clear terms cl = (false, []) ∧
    gpio_config terms cl = (false, []) ∧
    gpio_dispatch terms cl = (false, []) := by
  have hnone := gpio_get_port_pin_eq_none h
  have hget : gpio_get terms cl = (false, []) := by
    unfold gpio_get; rw [hnone]
  have hset : gpio_set terms cl = (false, []) := by
    unfold gpio_set; rw [hnone]
  have hclear : gpio_clear terms cl = (false, []) := by
    unfold gpio_clear; rw [hnone]
  have hconfig : gpio_config terms cl = (false, []) := by
    unfold gpio_config
    split
    · match cl.direction with
      | none => rfl
      | some d =>
        simp only
        split
        · rfl
        · rename_i direction _
          split
          · match cl.sense with
            | none => rfl
            | some sn =>
              simp only
              split
              · rfl
              · rename_i sense _
                rw [hnone]
          · rfl
    · rfl
  refine ⟨hget, hset, hclear, hconfig, ?_⟩
  unfold gpio_dispatch
  split
  · match cl.action with
    | none => rfl
    | some a =>
      simp only
      split
      · exact hget
      · split
        · exact hset
        · split
          · exact hclear
          · split
            · match cl.direction, cl.sense with
              | some _, some _ => exact hconfig
              | none, _ => rfl
              | some _, none => rfl
            · rfl
  · rfl

/-- Witness for C1: with an unresolvable PORT token, `gpio_set` and
`gpio_dispatch` touch no pad and fail. -/
theorem claim_C1_no_side_effects_witness :
    ¬ (port_resolves gpio_terms cmd_bad_port ∧ pin_resolves gpio_terms cmd_bad_port) ∧
    (gpio_get gpio_terms cmd_bad_port = (false, []) ∧
     gpio_set gpio_terms cmd_bad_port = (false, []) ∧
     gpio_clear gpio_terms cmd_bad_port = (false, []) ∧
     gpio_config gpio_terms cmd_bad_port = (false, []) ∧
     gpio_dispatch gpio_terms cmd_bad_port = (false, [])) :=
  ⟨by decide, claim_C1_no_side_effects gpio_terms cmd_bad_port (by decide)⟩

/-- C3: `util_message_begin` always emits exactly the single
CRLF-terminated line `BEGIN:`, and `util_message_end` emits exactly
`END:OK` when its success argument is true and exactly `END:ERROR` when
it is false, each as one CRLF-terminated line and as the only END line
the call produces. -/
theorem claim_C3_begin_end_lines (chp : Chp) :
    util_message_begin chp = [.wait, .out (cstr "BEGIN:\r\n"), .signal]
    ∧ util_message_end chp true = [.wait, .out (cstr "END:OK\r\n"), .signal]
    ∧ util_message_end chp false = [.wait, .out (cstr "END:ERROR\r\n"), .signal]
    ∧ is_crlf_line (cstr "BEGIN:\r\n") = true
    ∧ is_crlf_line (cstr "END:OK\r\n") = true
    ∧ is_crlf_line (cstr "END:ERROR\r\n") = true :=
  ⟨rfl, rfl, rfl, by decide, by decide, by decide⟩

theorem fetch_dac_write_cmd_parsed {d0 d1 : CStr} {ch v : Int}
    (h0 : strtol_c d0 = (ch, [])) (h1 : strtol_c d1 = (v, [])) :
    fetch_dac_write_cmd true [d0, d1] =
      (if ch = 0 ∨ ch = 1 ∨ ch = 2 ∨ ch = 3 then
        ((external_dac_write (u16ofInt ch) (u16ofInt v)).1,
         (external_dac_write (u16ofInt ch) (u16ofInt v)).2.map DacEv.op)
      else if ch = 4 then (true, [.op (.dacPut 0 (u16ofInt v))])
      else (false, [.err "invalid channel"])) := by
  unfold fetch_dac_write_cmd
  simp [fetch_input_check, h0, h1]

theorem external_dac_write_big (channel value : Nat) (hv : 4095 < value) :
    external_dac_write channel value = (false, []) := by
  unfold external_dac_write
  rw [if_pos]
  simp
  omega

/-- C4 (amended): a channel outside 0..4 makes dac write fail with the
diagnostic `invalid channel` (in particular at arguments 9 and 100), but
a write to channels 0-3 whose 16-bit-truncated value exceeds 0xfff
fails with NO diagnostic: `external_dac_write` returns false silently. -/
theorem claim_C4_domain_range (d0 d1 : CStr) (ch v : Int)
    (h0 : strtol_c d0 = (ch, [])) (h1 : strtol_c d1 = (v, [])) :
    ((ch < 0 ∨ 4 < ch) →
      fetch_dac_write_cmd true [d0, d1] = (false, [.err "invalid channel"]))
    ∧ (0 ≤ ch → ch ≤ 3 → 4095 < u16ofInt v →
      fetch_dac_write_cmd true [d0, d1] = (false, []))
    ∧ fetch_dac_write_cmd true [cstr "9", cstr "100"] =
        (false, [.err "invalid channel"]) := by
  refine ⟨?_, ?_, by decide⟩
  · intro hch
    rw [fetch_dac_write_cmd_parsed h0 h1,
      if_neg (by omega : ¬ (ch = 0 ∨ ch = 1 ∨ ch = 2 ∨ ch = 3)),
      if_neg (by omega : ¬ ch = 4)]
  · intro hl hr hv
    rw [fetch_dac_write_cmd_parsed h0 h1,
      if_pos (by omega : ch = 0 ∨ ch = 1 ∨ ch = 2 ∨ ch = 3),
      external_dac_write_big _ _ hv]
    rfl

/-- C4 counterexample: the claim as stated requires every domain-range
violation to emit a diagnostic, but writing value 4096 to channel 0
returns false while emitting nothing at all. -/
theorem claim_C4_counterexample :
    fetch_dac_write_cmd true [cstr "0", cstr "4096"] = (false, []) := by decide

/-- Witness for C4 at the arguments 9 and 100 from the spec scenario. -/
theorem claim_C4_domain_range_witness :
    strtol_c (cstr "9") = (9, []) ∧ strtol_c (cstr "100") = (100, []) ∧
    ((((9 : Int) < 0 ∨ 4 < (9 : Int)) →
      fetch_dac_write_cmd true [cstr "9", cstr "100"] = (false, [.err "invalid channel"]))
    ∧ (0 ≤ (9 : Int) → (9 : Int) ≤ 3 → 4095 < u16ofInt 100 →
      fetch_dac_write_cmd true [cstr "9", cstr "100"] = (false, []))
    ∧ fetch_dac_write_cmd true [cstr "9", cstr "100"] =
        (false, [.err "invalid channel"])) :=
  ⟨by decide, by decide,
    claim_C4_domain_range (cstr "9") (cstr "100") 9 100 (by decide) (by decide)⟩

theorem fetch_dac_write_cmd_bad0 {d0 d1 : CStr} (h : (strtol_c d0).2 ≠ []) :
    fetch_dac_write_cmd true [d0, d1] = (false, [.err "invalid channel"]) := by
  unfold fetch_dac_write_cmd
  simp [fetch_input_check, h]

theorem fetch_dac_write_cmd_bad1 {d0 d1 : CStr} (h0 : (strtol_c d0).2 = [])
    (h : (strtol_c d1).2 ≠ []) :
    fetch_dac_write_cmd true [d0, d1] = (false, [.err "invalid value"]) := by
  unfold fetch_dac_write_cmd
  simp [fetch_input_check, h0, h]

/-- C5: if either argument leaves unconsumed characters after strtol,
dac write emits `invalid channel` or `invalid value` and returns false,
performing no DAC operation. -/
theorem claim_C5_trailing_garbage (d0 d1 : CStr)
    (h : (strtol_c d0).2 ≠ [] ∨ (strtol_c d1).2 ≠ []) :
    (fetch_dac_write_cmd true [d0, d1] = (false, [.err "invalid channel"]) ∨
     fetch_dac_write_cmd true [d0, d1] = (false, [.err "invalid value"])) ∧
    (∀ e ∈ (fetch_dac_write_cmd true [d0, d1]).2, ∀ o : DacOp, e ≠ .op o) := by
  have hmain : fetch_dac_write_cmd true [d0, d1] = (false, [.err "invalid channel"]) ∨
      fetch_dac_write_cmd true [d0, d1] = (false, [.err "invalid value"]) := by
    by_cases h0 : (strtol_c d0).2 = []
    · rcases h with h | h
      · exact absurd h0 h
      · exact Or.inr (fetch_dac_write_cmd_bad1 h0 h)
    · exact Or.inl (fetch_dac_write_cmd_bad0 h0)
  refine ⟨hmain, ?_⟩
  rcases hmain with h' | h' <;> rw [h'] <;> intro e he o <;> simp at he <;> simp [he]

/-- Witness for C5 at the argument "3x", which has a trailing x. -/
theorem claim_C5_trailing_garbage_witness :
    ((strtol_c (cstr "3x")).2 ≠ [] ∨ (strtol_c (cstr "5")).2 ≠ []) ∧
    ((fetch_dac_write_cmd true [cstr "3x", cstr "5"] = (false, [.err "invalid channel"]) ∨
      fetch_dac_write_cmd true [cstr "3x", cstr "5"] = (false, [.err "invalid value"])) ∧
     (∀ e ∈ (fetch_dac_write_cmd true [cstr "3x", cstr "5"]).2, ∀ o : DacOp, e ≠ .op o)) :=
  ⟨by decide, claim_C5_trailing_garbage (cstr "3x") (cstr "5") (by decide)⟩

theorem run_init_n_true : ∀ n, run_init_n n true = (true, []) := by
  intro n
  induction n with
  | zero => rfl
  | succ k ih => simp [run_init_n, fetch_dac_init, ih]

/-- C9: `fetch_dac_init` is idempotent: once the static flag is set a
call performs no driver operation and leaves the flag set, so any
positive number of calls from the initial state equals a single call. -/
theorem claim_C9_init_idempotent (n : Nat) (h : 1 ≤ n) :
    run_init_n n false = run_init_n 1 false ∧
    fetch_dac_init true = (true, []) ∧
    (fetch_dac_init false).1 = true := by
  refine ⟨?_, rfl, rfl⟩
  cases n with
  | zero => omega
  | succ k => simp [run_init_n, fetch_dac_init, run_init_n_true]

/-- Witness for C9: three calls equal one call. -/
theorem claim_C9_init_idempotent_witness :
    1 ≤ 3 ∧ (run_init_n 3 false = run_init_n 1 false ∧
      fetch_dac_init true = (true, []) ∧ (fetch_dac_init false).1 = true) :=
  ⟨by decide, claim_C9_init_idempotent 3 (by decide)⟩

/-- C6 evidence: `util_message_uint8` and `util_message_uint16` render
elements as unsigned decimals, but `util_message_uint32` prints its
elements with `%d`, so the uint32 element 2^31 is emitted as
`-2147483648` instead of `2147483648`: the code contradicts the U32 tag
and the sibling emitters. -/
theorem claim_C6_unsigned_decimal :
    util_message_uint8 (some ()) (cstr "a") [200] =
      [.wait, .out (cstr "U8:a:"), .out (cstr "200"), .out (cstr "\r\n"), .signal]
    ∧ util_message_uint16 (some ()) (cstr "a") [40000] =
      [.wait, .out (cstr "U16:a:"), .out (cstr "40000"), .out (cstr "\r\n"), .signal]
    ∧ util_message_uint32 (some ()) (cstr "a") [2147483648] =
      [.wait, .out (cstr "U32:a:"), .out (cstr "-2147483648"), .out (cstr "\r\n"), .signal]
    ∧ printf_d_of_u32 2147483648 ≠ printf_u 2147483648 := by
  refine ⟨by decide, by decide, by decide, by decide⟩

theorem needs_newline_eq (fmt : CStr) :
    needs_newline (some fmt) = !(fmt.getLastD 0 == 10 || fmt.getLastD 0 == 13) := by
  cases fmt <;> rfl

theorem ite_flip_not {α : Type} (b : Bool) (A B : α) :
    (if !b then A else B) = if b then B else A := by
  cases b <;> rfl

/-- C7: the formatted emitters append a trailing CRLF exactly when the
format template does not already end in a line terminator; the decision
depends only on the template, never on the rendered payload. -/
theorem claim_C7_newline_from_template (fmt rendered name file func : CStr)
    (line : Int) :
    (needs_newline (some fmt) = !(fmt.getLastD 0 == 10 || fmt.getLastD 0 == 13))
    ∧ (util_message_info (some ()) (some fmt) rendered =
        [.wait, .out (cstr "#:"), .out rendered] ++
        (if fmt.getLastD 0 == 10 || fmt.getLastD 0 == 13 then []
         else [.out (cstr "\r\n")]) ++ [.signal])
    ∧ (util_message_warning (some ()) (some fmt) rendered =
        [.wait, .out (cstr "W:"), .out rendered] ++
        (if fmt.getLastD 0 == 10 || fmt.getLastD 0 == 13 then []
         else [.out (cstr "\r\n")]) ++ [.signal])
    ∧ (util_message_error (some ()) (some fmt) rendered =
        [.wait, .out (cstr "E:"), .out rendered] ++
        (if fmt.getLastD 0 == 10 || fmt.getLastD 0 == 13 then []
         else [.out (cstr "\r\n")]) ++ [.signal])
    ∧ (util_message_string (some ()) name (some fmt) rendered =
        [.wait, .out (cstr "S:" ++ name ++ cstr ":"), .out rendered] ++
        (if fmt.getLastD 0 == 10 || fmt.getLastD 0 == 13 then []
         else [.out (cstr "\r\n")]) ++ [.signal])
    ∧ (util_message_debug (some ()) (some file) line (some func) (some fmt) rendered =
        [.wait,
         .out (cstr "?:" ++ file ++ cstr ":" ++ printf_d line ++ cstr ":" ++ func ++ cstr ":"),
         .out rendered] ++
        (if fmt.getLastD 0 == 10 || fmt.getLastD 0 == 13 then []
         else [.out (cstr "\r\n")]) ++ [.signal]) := by
  refine ⟨needs_newline_eq fmt, ?_, ?_, ?_, ?_, ?_⟩ <;>
    simp only [util_message_info, util_message_warning, util_message_error,
      util_message_string, util_message_debug, needs_newline_eq, ite_flip_not]

theorem outs_emit_elems {α : Type} (f : α → CStr) :
    ∀ (l : List α), ∀ e ∈ emit_elems f l, ∃ s, Ev.out s = e := by
  intro l
  induction l with
  | nil => intro e he; simp [emit_elems] at he
  | cons x xs ih =>
    intro e he
    cases xs with
    | nil =>
      simp [emit_elems] at he
      exact ⟨f x, he.symm⟩
    | cons y ys =>
      simp only [emit_elems, List.mem_cons] at he
      rcases he with rfl | rfl | hmem
      · exact ⟨f x, rfl⟩
      · exact ⟨cstr ",", rfl⟩
      · exact ih e hmem

theorem outs_append {l1 l2 : List Ev} (h1 : ∀ e ∈ l1, ∃ s, Ev.out s = e)
    (h2 : ∀ e ∈ l2, ∃ s, Ev.out s = e) : ∀ e ∈ l1 ++ l2, ∃ s, Ev.out s = e := by
  intro e he
  rcases List.mem_append.mp he with h | h
  exacts [h1 e h, h2 e h]

theorem sem_balanced_wrap (mid : List Ev) (hm : ∀ e ∈ mid, ∃ s, Ev.out s = e) :
    sem_balanced (.wait :: mid ++ [.signal]) :=
  Or.inr ⟨mid, rfl, hm⟩

theorem sem_balanced_fmt (p r : CStr) (cond : Bool) :
    sem_balanced ([Ev.wait, Ev.out p, Ev.out r] ++
      (if cond then [Ev.out (cstr "\r\n")] else []) ++ [Ev.signal]) := by
  cases cond
  · exact sem_balanced_wrap [Ev.out p, Ev.out r] (by simp)
  · exact sem_balanced_wrap [Ev.out p, Ev.out r, Ev.out (cstr "\r\n")] (by simp)

theorem sem_balanced_parts (tag : CStr) (mids : List Ev)
    (hm : ∀ e ∈ mids, ∃ s, Ev.out s = e) :
    sem_balanced ([Ev.wait, Ev.out tag] ++ mids ++ [Ev.out (cstr "\r\n"), Ev.signal]) := by
  have h : [Ev.wait, Ev.out tag] ++ mids ++ [Ev.out (cstr "\r\n"), Ev.signal] =
      Ev.wait :: ((Ev.out tag :: mids) ++ [Ev.out (cstr "\r\n")]) ++ [Ev.signal] := by
    simp
  rw [h]
  refine Or.inr ⟨_, rfl, ?_⟩
  intro e he
  rcases List.mem_append.mp he with h3 | h3
  · rcases List.mem_cons.mp h3 with rfl | h4
    · exact ⟨tag, rfl⟩
    · exact hm e h4
  · simp at h3
    subst h3
    exact ⟨cstr "\r\n", rfl⟩

/-- C8: every message-emission call produces a semaphore-balanced trace:
either nothing at all, or exactly one wait at the start and one signal
at the end with only stream prints in between — the lock is released on
every exit path and never held across separate emissions. -/
theorem claim_C8_semaphore_balanced (c : UtilCall) :
    sem_balanced (util_call_trace c) := by
  cases c with
  | beginMsg chp => exact sem_balanced_wrap [.out (cstr "BEGIN:\r\n")] (by simp)
  | endMsg chp success =>
    cases success
    · exact sem_balanced_wrap [.out (cstr "END:ERROR\r\n")] (by simp)
    · exact sem_balanced_wrap [.out (cstr "END:OK\r\n")] (by simp)
  | debugMsg chp file line func fmt rendered =>
    match fmt, file, func, chp with
    | some f, some fl, some fn, some _ => exact sem_balanced_fmt _ rendered _
    | none, _, _, _ => exact Or.inl rfl
    | some _, none, _, _ => exact Or.inl rfl
    | some _, some _, none, _ => exact Or.inl rfl
    | some _, some _, some _, none => exact Or.inl rfl
  | infoMsg chp fmt rendered =>
    match chp, fmt with
    | some _, some f => exact sem_balanced_fmt _ rendered _
    | none, _ => exact Or.inl rfl
    | some _, none => exact Or.inl rfl
  | warningMsg chp fmt rendered =>
    match chp, fmt with
    | some _, some f => exact sem_balanced_fmt _ rendered _
    | none, _ => exact Or.inl rfl
    | some _, none => exact Or.inl rfl
  | errorMsg chp fmt rendered =>
    match chp, fmt with
    | some _, some f => exact sem_balanced_fmt _ rendered _
    | none, _ => exact Or.inl rfl
    | some _, none => exact Or.inl rfl
  | boolMsg chp name data =>
    match chp with
    | none => exact Or.inl rfl
    | some _ =>
      cases data
      · exact sem_balanced_wrap [.out (cstr "B:" ++ name ++ cstr ":false\r\n")] (by simp)
      · exact sem_balanced_wrap [.out (cstr "B:" ++ name ++ cstr ":true\r\n")] (by simp)
  | stringMsg chp name fmt rendered =>
    match chp, fmt with
    | some _, some f => exact sem_balanced_fmt _ rendered _
    | none, _ => exact Or.inl rfl
    | some _, none => exact Or.inl rfl
  | stringArrayMsg chp name arr =>
    match chp with
    | none => exact Or.inl rfl
    | some _ => exact sem_balanced_parts _ _ (outs_emit_elems id arr)
  | doubleMsg chp name rendered_data =>
    match chp with
    | none => exact Or.inl rfl
    | some _ => exact sem_balanced_parts _ _ (outs_emit_elems id rendered_data)
  | int8Msg chp name data =>
    match chp with
    | none => exact Or.inl rfl
    | some _ => exact sem_balanced_parts _ _ (outs_emit_elems printf_d data)
  | uint8Msg chp name data =>
    match chp with
    | none => exact Or.inl rfl
    | some _ => exact sem_balanced_parts _ _ (outs_emit_elems printf_u data)
  | int16Msg chp name data =>
    match chp with
    | none => exact Or.inl rfl
    | some _ => exact sem_balanced_parts _ _ (outs_emit_elems printf_d data)
  | uint16Msg chp name data =>
    match chp with
    | none => exact Or.inl rfl
    | some _ => exact sem_balanced_parts _ _ (outs_emit_elems printf_u data)
  | int32Msg chp name data =>
    match chp with
    | none => exact Or.inl rfl
    | some _ => exact sem_balanced_parts _ _ (outs_emit_elems printf_d data)
  | uint32Msg chp name data =>
    match chp with
    | none => exact Or.inl rfl
    | some _ => exact sem_balanced_parts _ _ (outs_emit_elems printf_d_of_u32 data)
  | hex8Msg chp name data =>
    match chp with
    | none => exact Or.inl rfl
    | some _ => exact sem_balanced_parts _ _ (outs_emit_elems (printf_hex 2) data)
  | hex16Msg chp name data =>
    match chp with
    | none => exact Or.inl rfl
    | some _ => exact sem_balanced_parts _ _ (outs_emit_elems (printf_hex 4) data)
  | hex32Msg chp name data =>
    match chp with
    | none => exact Or.inl rfl
    | some _ => exact sem_balanced_parts _ _ (outs_emit_elems (printf_hex 8) data)

/-- C10 (amended): every emission function except `util_message_begin`
and `util_message_end` is a strict no-op when the stream pointer is NULL
(for the formatted variants also when the format is NULL): nothing is
printed and the semaphore is untouched; `util_message_begin` and
`util_message_end` take and release the semaphore and print
unconditionally. -/
theorem claim_C10_null_guards (chp : Chp) (name file func fmt rendered : CStr)
    (line : Int) (sarr : List CStr) (ndata : List Nat) (idata : List Int)
    (b success : Bool) :
    util_message_debug none (some file) line (some func) (some fmt) rendered = []
    ∧ util_message_debug chp none line (some func) (some fmt) rendered = []
    ∧ util_message_debug chp (some file) line none (some fmt) rendered = []
    ∧ util_message_debug chp (some file) line (some func) none rendered = []
    ∧ util_message_info none (some fmt) rendered = []
    ∧ util_message_info chp none rendered = []
    ∧ util_message_warning none (some fmt) rendered = []
    ∧ util_message_warning chp none rendered = []
    ∧ util_message_error none (some fmt) rendered = []
    ∧ util_message_error chp none rendered = []
    ∧ util_message_bool none name b = []
    ∧ util_message_string none name (some fmt) rendered = []
    ∧ util_message_string chp name none rendered = []
    ∧ util_message_string_array none name sarr = []
    ∧ util_message_double none name sarr = []
    ∧ util_message_int8 none name idata = []
    ∧ util_message_uint8 none name ndata = []
    ∧ util_message_int16 none name idata = []
    ∧ util_message_uint16 none name ndata = []
    ∧ util_message_int32 none name idata = []
    ∧ util_message_uint32 none name ndata = []
    ∧ util_message_hex_uint8 none name ndata = []
    ∧ util_message_hex_uint16 none name ndata = []
    ∧ util_message_hex_uint32 none name ndata = []
    ∧ util_message_begin none = [.wait, .out (cstr "BEGIN:\r\n"), .signal]
    ∧ util_message_end none success =
        [.wait, .out (if success then cstr "END:OK\r\n" else cstr "END:ERROR\r\n"), .signal] := by
  refine ⟨rfl, ?_, ?_, ?_, rfl, ?_, rfl, ?_, rfl, ?_, rfl, rfl, ?_, rfl, rfl, rfl,
    rfl, rfl, rfl, rfl, rfl, rfl, rfl, rfl, rfl, ?_⟩
  · cases chp <;> rfl
  · cases chp <;> rfl
  · cases chp <;> rfl
  · cases chp <;> rfl
  · cases chp <;> rfl
  · cases chp <;> rfl
  · cases chp <;> rfl
  · cases success <;> rfl

/-- C10 counterexample: `util_message_begin` with a NULL stream does not
return immediately as a no-op — it still takes the output semaphore and
prints, because it has no NULL check. -/
theorem claim_C10_counterexample :
    util_message_begin none ≠ [] ∧ Ev.wait ∈ util_message_begin none := by decide
